import Mathlib

/-!
Shallow embedding of the timeframe-driven report-fetching controller of the
Vicidial analytics dashboard.  The embedded code is:

* src/frontend/src/pages/Dashboard.tsx — the current dashboard
  (getDateRange, fetchReport, fetchServerDate, and the live auto-refresh
  effect at lines 186-195);
* the older duplicate dashboard implementation (src/unnamed/part_003) —
  its getDateRange (lines 54-80) and the incomplete-custom-range guard of
  its fetchReport (lines 83-97).

Calendar dates are modelled by their serial day number (an Int: days since
1970-01-01).  The TypeScript code stores dates as YYYY-MM-DD strings and
manipulates them with new Date(s) / d.setDate(d.getDate() - n) /
formatDate; on valid date strings this composite is exactly subtraction on
the serial day number, so `d - n` embeds "n days before d".  fromCivil
converts a civil date to its day number and formatDate renders a day number
back to its YYYY-MM-DD string, so concrete dates of the specification such
as 2024-03-10 are written fromCivil 2024 3 10.  An empty date string
(falsy in JavaScript) is modelled as none : Option Int.
-/

namespace VicidialDashboard

/-- Serial day number of the civil (Gregorian) date y-m-d, with day 0 =
1970-01-01 (days-from-civil, using floor division). -/
def fromCivil (y m d : Int) : Int :=
  let yAdj := if m ≤ 2 then y - 1 else y
  let era := Int.fdiv yAdj 400
  let yoe := yAdj - era * 400
  let mp := if m > 2 then m - 3 else m + 9
  let doy := Int.fdiv (153 * mp + 2) 5 + d - 1
  let doe := yoe * 365 + Int.fdiv yoe 4 - Int.fdiv yoe 100 + doy
  era * 146097 + doe - 719468

/-- Civil (Gregorian) date (year, month, day) of a serial day number:
inverse of fromCivil (civil-from-days). -/
def toCivil (z : Int) : Int × Int × Int :=
  let zShift := z + 719468
  let era := Int.fdiv zShift 146097
  let doe := zShift - era * 146097
  let yoe :=
    Int.fdiv (doe - Int.fdiv doe 1460 + Int.fdiv doe 36524 - Int.fdiv doe 146096) 365
  let y := yoe + era * 400
  let doy := doe - (365 * yoe + Int.fdiv yoe 4 - Int.fdiv yoe 100)
  let mp := Int.fdiv (5 * doy + 2) 153
  let d := doy - Int.fdiv (153 * mp + 2) 5 + 1
  let m := if mp < 10 then mp + 3 else mp - 9
  (if m ≤ 2 then y + 1 else y, m, d)

/-- Two-digit zero-padded rendering of a month or day field. -/
def pad2 (n : Int) : String :=
  if n < 10 then "0" ++ toString n else toString n

/-- The dashboards' formatDate helper: render a date as a YYYY-MM-DD
string (source: const formatDate = (date) => date.toISOString().split("T")[0],
applied here to the day-number model of the date). -/
def formatDate (z : Int) : String :=
  let c := toCivil z
  toString c.1 ++ "-" ++ pad2 c.2.1 ++ "-" ++ pad2 c.2.2

/-- MainTimeframe of the current dashboard:
"live" | "yesterday" | "weekly" | "monthly" | "custom"
(the UI labels these Today (Live), Yesterday, Last 7 Days, Last 30 Days,
Custom Range). -/
inductive MainTimeframe
  | live
  | yesterday
  | weekly
  | monthly
  | custom
  deriving DecidableEq, Repr

/-- Timeframe of the older duplicate dashboard:
"daily" | "yesterday" | "weekly" | "monthly" | "custom"
(its "daily" is the current dashboard's "live": both are labelled Today). -/
inductive OldTimeframe
  | daily
  | yesterday
  | weekly
  | monthly
  | custom
  deriving DecidableEq, Repr

/-- getDateRange of the current dashboard (Dashboard.tsx lines 124-147).
today is the resolved reference date (serverDate, or the fetchServerDate
result when serverDate is still unset); startDate and endDate are both
initialised to today and then overridden per timeframe branch.  The
user-supplied custom dates are Options (none = empty string), and the
JavaScript fallback customStart || today is Option.getD. -/
def getDateRange (timeframe : MainTimeframe) (today : Int)
    (customStart customEnd : Option Int) : Int × Int :=
  if timeframe = .yesterday then
    (today - 1, today - 1)
  else if timeframe = .weekly then
    (today - 7, today)
  else if timeframe = .monthly then
    (today - 30, today)
  else if timeframe = .custom then
    (customStart.getD today, customEnd.getD today)
  else
    (today, today)

/-- getDateRange of the older duplicate dashboard (part_003 lines 54-80):
an if/else chain on "daily" / "yesterday" / "weekly" / "monthly" with the
final else handling "custom". -/
def getDateRangeOld (timeframe : OldTimeframe) (today : Int)
    (customStart customEnd : Option Int) : Int × Int :=
  if timeframe = .daily then
    (today, today)
  else if timeframe = .yesterday then
    (today - 1, today - 1)
  else if timeframe = .weekly then
    (today - 7, today)
  else if timeframe = .monthly then
    (today - 30, today)
  else
    (customStart.getD today, customEnd.getD today)

/-- Identification of the two timeframe enumerations: the current
dashboard's "live" is the older one's "daily"; the rest coincide. -/
def toOldTimeframe : MainTimeframe → OldTimeframe
  | .live => .daily
  | .yesterday => .yesterday
  | .weekly => .weekly
  | .monthly => .monthly
  | .custom => .custom

/-- The /report response body as read by fetchReport: the aggregate fields
the dashboard displays, plus an optional balance (res.data.balance is
checked against undefined before being stored). -/
structure ReportResponse where
  total_calls : Nat
  connected_calls : Nat
  ASR_percent : Int
  ACD_seconds : Int
  balance : Option Int
  deriving DecidableEq, Repr

/-- The dashboard state touched by the fetch functions: the data snapshot
(none before the first successful fetch), the loading flag, the last error
(none when cleared), the stored server date (none models the initial empty
string), and the displayed balance. -/
structure DashboardState where
  data : Option ReportResponse
  loading : Bool
  error : Option String
  serverDate : Option Int
  balance : Int
  deriving DecidableEq, Repr

/-- Outcome of the awaited GET /report call: success carries the parsed
response; failure carries the structured server message
e?.response?.data?.error when one exists (none for a transport error or an
unstructured failure). -/
inductive FetchOutcome
  | success (resp : ReportResponse)
  | failure (serverMessage : Option String)
  deriving DecidableEq, Repr

/-- JavaScript a || b on an optional string: an absent or empty (falsy)
left operand yields the default. -/
def jsOrString : Option String → String → String
  | some s, dflt => if s = "" then dflt else s
  | none, dflt => dflt

/-- Prologue of fetchReport (Dashboard.tsx line 151): if (!silent)
setLoading(true).  This is the state in force while the request is in
flight. -/
def fetchReportStart (silent : Bool) (s : DashboardState) : DashboardState :=
  if silent then s else { s with loading := true }

/-- Epilogue of fetchReport (Dashboard.tsx lines 157-167) applied to the
in-flight state: on success setData(res.data), setBalance when
res.data.balance is defined, setError(null); on failure (the catch block)
setError(e?.response?.data?.error || "Failed to fetch report"); the finally
block runs if (!silent) setLoading(false).  The catch covers every throw
inside the try, so the function is total: no exception escapes. -/
def fetchReportFinish (silent : Bool) (outcome : FetchOutcome)
    (s : DashboardState) : DashboardState :=
  let afterTry :=
    match outcome with
    | .success resp =>
        let s1 := { s with data := some resp }
        let s2 :=
          match resp.balance with
          | some b => { s1 with balance := b }
          | none => s1
        { s2 with error := none }
    | .failure msg =>
        { s with error := some (jsOrString msg "Failed to fetch report") }
  if silent then afterTry else { afterTry with loading := false }

/-- fetchReport of the current dashboard (Dashboard.tsx lines 149-168) as
a state transformer: prologue, awaited request resolving to the given
outcome, epilogue.  Totality in outcome embeds the try/catch/finally
boundary: both transport and server errors are absorbed into the state. -/
def fetchReport (silent : Bool) (outcome : FetchOutcome)
    (s : DashboardState) : DashboardState :=
  fetchReportFinish silent outcome (fetchReportStart silent s)

/-- fetchServerDate of the current dashboard (Dashboard.tsx lines 69-81):
response is the /server-date reply (none when the request failed) and
localDate is formatDate(new Date()), the browser clock's current day.  On
success the server date is stored and returned; on failure the local date
is stored as the server date and returned, and no error state is set. -/
def fetchServerDate (response : Option Int) (localDate : Int)
    (s : DashboardState) : DashboardState × Int :=
  match response with
  | some sd => ({ s with serverDate := some sd }, sd)
  | none =>
      let fallback := localDate
      ({ s with serverDate := some fallback }, fallback)

/-- The GET /report request issued by one call of the current dashboard's
fetchReport, as its (start_date, end_date) parameters; none would mean the
call returned without issuing a request.  Dashboard.tsx lines 149-168 have
no guard before the request, so a request is issued on every call, with
the derived (fallback-completed) date range. -/
def reportRequest (timeframe : MainTimeframe) (today : Int)
    (customStart customEnd : Option Int) : Option (Int × Int) :=
  some (getDateRange timeframe today customStart customEnd)

/-- The GET /report request issued by one call of the older dashboard's
fetchReport (part_003 lines 83-97): the guard at line 84,
if (timeframe === "custom" && (!customStart || !customEnd)) return,
returns before issuing any request when the custom range is incomplete. -/
def reportRequestOld (timeframe : OldTimeframe) (today : Int)
    (customStart customEnd : Option Int) : Option (Int × Int) :=
  if timeframe = .custom ∧ (customStart.isNone ∨ customEnd.isNone) then
    none
  else
    some (getDateRangeOld timeframe today customStart customEnd)

/-- The effect of Dashboard.tsx lines 198-201 runs on every change of
timeframe or refreshKey and calls fetchReport(true) unconditionally, so
the request it issues is exactly reportRequest for the state it reads. -/
def timeframeEffectRequest (timeframe : MainTimeframe) (today : Int)
    (customStart customEnd : Option Int) : Option (Int × Int) :=
  reportRequest timeframe today customStart customEnd

/-- The recurring timer installed by the live auto-refresh effect
(Dashboard.tsx lines 186-195) for a given timeframe: if the timeframe is
not "live" the effect returns without scheduling (and its cleanup has
already cleared any previous interval); otherwise setInterval(..., 60000)
schedules one interval, whose period in milliseconds is recorded.  The
interval body calls fetchReport(true) — a silent report fetch — along
with fetchBalance and fetchConnectedCallsChart. -/
def liveRefreshTimer (timeframe : MainTimeframe) : Option Nat :=
  if timeframe = .live then some 60000 else none

/-- Controller state for the polling behaviour: the selected timeframe,
the currently scheduled recurring interval (none when no timer is active;
React's effect contract keeps at most one instance alive because the
cleanup of the previous run executes before the effect re-runs), and a
counter of timer-driven silent report fetches. -/
structure ControllerState where
  timeframe : MainTimeframe
  timer : Option Nat
  silentTimerFetches : Nat
  deriving DecidableEq, Repr

/-- Events driving the polling controller: a user timeframe selection
(which re-runs the auto-refresh effect: cleanup clears the old interval,
then liveRefreshTimer decides the new one) or the firing of the scheduled
interval (which performs a silent report fetch; with no timer scheduled no
tick can fire, modelled as a no-op). -/
inductive ControllerEvent
  | selectTimeframe (tf : MainTimeframe)
  | timerTick
  deriving DecidableEq, Repr

/-- One controller transition. -/
def controllerStep (s : ControllerState) : ControllerEvent → ControllerState
  | .selectTimeframe tf =>
      { s with timeframe := tf, timer := liveRefreshTimer tf }
  | .timerTick =>
      match s.timer with
      | some _ => { s with silentTimerFetches := s.silentTimerFetches + 1 }
      | none => s

/-- Run of a sequence of controller events. -/
def controllerRun (s : ControllerState) (evs : List ControllerEvent) :
    ControllerState :=
  evs.foldl controllerStep s

theorem controllerRun_ticks_no_timer (s : ControllerState)
    (hs : s.timer = none) :
    ∀ n : Nat, controllerRun s (List.replicate n .timerTick) = s := by
  intro n
  induction n with
  | zero => rfl
  | succ k ih =>
      have hstep : controllerStep s .timerTick = s := by
        simp [controllerStep, hs]
      simpa [controllerRun, List.replicate_succ, hstep] using ih

/-- C1: getDateRange derives the DateRange from the Timeframe exactly per
the specification's table — live/today: start = end = serverDate;
yesterday: start = end = serverDate minus 1 day; last-7-days: serverDate
minus 7 days up to serverDate; last-30-days: serverDate minus 30 days up
to serverDate; custom: the user-supplied dates, each falling back to
serverDate when empty.  In particular, serverDate 2024-03-10 gives
(2024-03-09, 2024-03-09) for yesterday and (2024-03-03, 2024-03-10) for
last-7-days. -/
theorem getDateRange_matches_spec_table :
    (∀ (sd : Int) (cs ce : Option Int),
        getDateRange .live sd cs ce = (sd, sd) ∧
        getDateRange .yesterday sd cs ce = (sd - 1, sd - 1) ∧
        getDateRange .weekly sd cs ce = (sd - 7, sd) ∧
        getDateRange .monthly sd cs ce = (sd - 30, sd) ∧
        getDateRange .custom sd cs ce = (cs.getD sd, ce.getD sd)) ∧
    getDateRange .yesterday (fromCivil 2024 3 10) none none
      = (fromCivil 2024 3 9, fromCivil 2024 3 9) ∧
    getDateRange .weekly (fromCivil 2024 3 10) none none
      = (fromCivil 2024 3 3, fromCivil 2024 3 10) :=
  ⟨fun _ _ _ => ⟨rfl, rfl, rfl, rfl, rfl⟩, by decide, by decide⟩

/-- C2 counterexample: the yesterday timeframe is not custom, yet at
serverDate 2024-03-10 its derived endDate is 2024-03-09, not the
serverDate — refuting endDate = serverDate for every non-custom
timeframe. -/
theorem yesterday_end_ne_serverDate :
    MainTimeframe.yesterday ≠ .custom ∧
    (getDateRange .yesterday (fromCivil 2024 3 10) none none).2
      ≠ fromCivil 2024 3 10 := by
  decide

/-- C2 amended: for the live, last-7-days and last-30-days timeframes the
derived endDate equals serverDate; for yesterday it equals serverDate
minus 1 day. -/
theorem getDateRange_end_dates (sd : Int) (cs ce : Option Int) :
    (getDateRange .live sd cs ce).2 = sd ∧
    (getDateRange .weekly sd cs ce).2 = sd ∧
    (getDateRange .monthly sd cs ce).2 = sd ∧
    (getDateRange .yesterday sd cs ce).2 = sd - 1 :=
  ⟨rfl, rfl, rfl, rfl⟩

/-- C3: re-running the live auto-refresh effect on a timeframe selection
schedules exactly one recurring 60000 ms interval when the new timeframe
is live and none otherwise (the cleanup has cleared the previous one);
consequently, after switching away from live, any number of subsequent
timer ticks produces no further silent timer-driven report fetches. -/
theorem live_polling_contract :
    (∀ (s : ControllerState) (tf : MainTimeframe),
        (controllerStep s (.selectTimeframe tf)).timer
          = if tf = .live then some 60000 else none) ∧
    (∀ (s : ControllerState) (tf : MainTimeframe) (n : Nat), tf ≠ .live →
        (controllerRun (controllerStep s (.selectTimeframe tf))
            (List.replicate n .timerTick)).silentTimerFetches
          = s.silentTimerFetches) := by
  constructor
  · intro s tf
    rfl
  · intro s tf n h
    have ht : (controllerStep s (.selectTimeframe tf)).timer = none := by
      simp [controllerStep, liveRefreshTimer, h]
    rw [controllerRun_ticks_no_timer _ ht n]
    rfl

/-- Witness for C3: from a live state with its 60-second timer, selecting
yesterday and letting two tick opportunities pass yields no silent
timer-driven fetch. -/
theorem live_polling_contract_witness :
    (controllerRun (controllerStep ⟨.live, some 60000, 0⟩
          (.selectTimeframe .yesterday))
        (List.replicate 2 .timerTick)).silentTimerFetches = 0 :=
  live_polling_contract.2 ⟨.live, some 60000, 0⟩ .yesterday 2 (by decide)

/-- C4: a failing report fetch — transport (no structured message) or
server error — leaves the stored snapshot unchanged and sets a non-empty
error string; fetchReport is total in the outcome, embedding that the
caught exception never propagates past the fetch boundary. -/
theorem fetchReport_failure_preserves_snapshot (silent : Bool)
    (msg : Option String) (s : DashboardState) :
    (fetchReport silent (.failure msg) s).data = s.data ∧
    ∃ e, (fetchReport silent (.failure msg) s).error = some e ∧ e ≠ "" := by
  constructor
  · cases silent <;> rfl
  · refine ⟨jsOrString msg "Failed to fetch report", ?_, ?_⟩
    · cases silent <;> rfl
    · cases msg with
      | none => simp [jsOrString]
      | some m =>
          by_cases hm : m = "" <;> simp [jsOrString, hm]

/-- C5: a successful report fetch replaces the stored snapshot wholesale
with the response and clears the error; in particular a success following
a failure removes the error the failure stored. -/
theorem fetchReport_success_replaces_snapshot (silent : Bool)
    (resp : ReportResponse) (msg : Option String) (s : DashboardState) :
    (fetchReport silent (.success resp) s).data = some resp ∧
    (fetchReport silent (.success resp) s).error = none ∧
    (fetchReport silent (.success resp)
        (fetchReport silent (.failure msg) s)).error = none := by
  refine ⟨?_, ?_, ?_⟩ <;>
    cases silent <;> cases h : resp.balance <;>
      simp [fetchReport, fetchReportStart, fetchReportFinish, h]

/-- C6 (code evaluated at the failing input): with timeframe custom,
customStart 2024-03-01 and customEnd empty, the current dashboard's
fetchReport — as invoked automatically by the timeframe/refreshKey
effect — issues GET /report with the fallback-completed range
(2024-03-01, serverDate 2024-03-10), while the older dashboard's guard
suppresses the request for the same incomplete range. -/
theorem custom_incomplete_range_autofetch_bug :
    timeframeEffectRequest .custom (fromCivil 2024 3 10)
        (some (fromCivil 2024 3 1)) none
      = some (fromCivil 2024 3 1, fromCivil 2024 3 10) ∧
    reportRequestOld .custom (fromCivil 2024 3 10)
        (some (fromCivil 2024 3 1)) none = none := by
  decide

/-- C7: with silent = true, fetchReport leaves the loading flag unchanged
both while the request is in flight and after it settles, for every
outcome; with silent = false the flag is on during the request and off
after it settles. -/
theorem fetchReport_silent_loading_frame (outcome : FetchOutcome)
    (s : DashboardState) :
    (fetchReportStart true s).loading = s.loading ∧
    (fetchReport true outcome s).loading = s.loading ∧
    (fetchReportStart false s).loading = true ∧
    (fetchReport false outcome s).loading = false := by
  refine ⟨rfl, ?_, rfl, ?_⟩ <;>
    cases outcome with
    | success resp =>
        cases h : resp.balance <;>
          simp [fetchReport, fetchReportStart, fetchReportFinish, h]
    | failure msg =>
        simp [fetchReport, fetchReportStart, fetchReportFinish]

/-- C8: for every timeframe other than custom the derived range satisfies
startDate ≤ endDate; the custom timeframe does not enforce the ordering —
user-supplied start 2024-03-12 with end 2024-03-01 yields a range whose
start exceeds its end. -/
theorem getDateRange_ordering :
    (∀ (tf : MainTimeframe) (sd : Int) (cs ce : Option Int),
        tf ≠ .custom →
        (getDateRange tf sd cs ce).1 ≤ (getDateRange tf sd cs ce).2) ∧
    (getDateRange .custom (fromCivil 2024 3 10)
        (some (fromCivil 2024 3 12)) (some (fromCivil 2024 3 1))).2
      < (getDateRange .custom (fromCivil 2024 3 10)
          (some (fromCivil 2024 3 12)) (some (fromCivil 2024 3 1))).1 := by
  constructor
  · intro tf sd cs ce h
    cases tf with
    | custom => exact absurd rfl h
    | live => simp [getDateRange]
    | yesterday => simp [getDateRange]
    | weekly => simp [getDateRange]
    | monthly => simp [getDateRange]
  · decide

/-- Witness for C8: the last-7-days range at serverDate 2024-03-10 has its
start no later than its end. -/
theorem getDateRange_ordering_witness :
    (getDateRange .weekly (fromCivil 2024 3 10) none none).1
      ≤ (getDateRange .weekly (fromCivil 2024 3 10) none none).2 :=
  getDateRange_ordering.1 .weekly (fromCivil 2024 3 10) none none (by decide)

/-- C9: the two duplicate dashboard implementations agree on date-range
derivation — for every reference serverDate and custom inputs, the current
dashboard's getDateRange coincides with the older dashboard's, under the
identification of the new "live" with the old "daily". -/
theorem getDateRange_duplicates_agree (tf : MainTimeframe) (sd : Int)
    (cs ce : Option Int) :
    getDateRange tf sd cs ce
      = getDateRangeOld (toOldTimeframe tf) sd cs ce := by
  cases tf <;> rfl

/-- C10: when the /server-date request fails, fetchServerDate surfaces no
error (the error state is untouched), stores the browser's local date —
rendered by formatDate as a YYYY-MM-DD string, e.g. 2024-03-09 — as the
serverDate, and returns it, so every subsequent date-range derivation from
the returned reference date uses the client's local date. -/
theorem fetchServerDate_failure_fallback (localDate : Int)
    (s : DashboardState) :
    (fetchServerDate none localDate s).2 = localDate ∧
    (fetchServerDate none localDate s).1.serverDate = some localDate ∧
    (fetchServerDate none localDate s).1.error = s.error ∧
    (∀ (tf : MainTimeframe) (cs ce : Option Int),
        getDateRange tf (fetchServerDate none localDate s).2 cs ce
          = getDateRange tf localDate cs ce) ∧
    formatDate (fromCivil 2024 3 9) = "2024-03-09" :=
  ⟨rfl, rfl, rfl, fun _ _ _ => rfl, by decide⟩

end VicidialDashboard
